import Mathlib

/-!
Verification of the lmdeploy pytorch engine core (`lmdeploy/pytorch/engine/engine.py`
and `lmdeploy/model.py`) against its natural-language specification.

Each Python construct relevant to the claims is shallowly embedded as an executable Lean
definition, translated directly from the source.  Stateful objects become explicit state
records with pure transition functions; Python exceptions (failed `assert`) become
`Except` errors; `None` becomes `Option`.
-/

namespace LMDeploy

/-- The engine roles from `lmdeploy.pytorch.disagg.config.EngineRole`. -/
inductive EngineRole where
  | Hybrid
  | Prefill
  | Decode
deriving DecidableEq, Repr

/-- Sequence states from `lmdeploy.pytorch.messages.MessageStatus`
(the subset the engine code manipulates). -/
inductive MessageStatus where
  | WAITING
  | RUNNING
  | LOCKED
  | STOPPED
  | TO_BE_MIGRATED
  | WAITING_MIGRATION
  | MIGRATION_LOCKED
deriving DecidableEq, Repr

/-- Control-plane response codes from `lmdeploy.messages.ResponseType`
(the subset used by the engine loop). -/
inductive ResponseType where
  | SUCCESS
  | FINISH
  | SESSION_REPEAT
  | SESSION_NOT_EXIST
  | INPUT_LENGTH_ERROR
  | INTERNAL_ENGINE_ERROR
  | CANCEL
deriving DecidableEq, Repr

/-! ### CounterEvent (engine.py lines 134-155)

```python
class CounterEvent:
    def __init__(self):
        self._counter = 0
        self._event = asyncio.Event()
    def set(self):
        if self._counter > 0:
            self._counter -= 1
        if self._counter == 0:
            self._event.set()
    def clear(self):
        if self._counter == 0 and self._event.is_set():
            self._event.clear()
        self._counter += 1
```

The asyncio event is modelled by its signalled flag; `wait()` only reads the flag
and is not part of the state transition system. -/

/-- State of a `CounterEvent`: the internal counter and whether the wrapped
`asyncio.Event` is currently signalled. -/
structure CounterEvent where
  counter : Nat
  eventSet : Bool
deriving DecidableEq, Repr

/-- `CounterEvent.__init__`: counter 0, event unsignalled. -/
def CounterEvent.init : CounterEvent := ⟨0, false⟩

/-- `CounterEvent.set`: decrement the counter when positive, then signal the
event when the counter is zero. -/
def CounterEvent.set (s : CounterEvent) : CounterEvent :=
  let c := if s.counter > 0 then s.counter - 1 else s.counter
  { counter := c, eventSet := if c = 0 then true else s.eventSet }

/-- `CounterEvent.clear`: unsignal the event when the counter is zero and the
event is signalled, then increment the counter. -/
def CounterEvent.clear (s : CounterEvent) : CounterEvent :=
  { counter := s.counter + 1
    eventSet := if s.counter = 0 ∧ s.eventSet then false else s.eventSet }

/-- States of a `CounterEvent` reachable from construction by any interleaving of
`set()` and `clear()` calls (the only mutators in `engine.py`). -/
inductive CounterEvent.Reachable : CounterEvent → Prop where
  | init : CounterEvent.Reachable CounterEvent.init
  | set : ∀ {s}, CounterEvent.Reachable s → CounterEvent.Reachable s.set
  | clear : ∀ {s}, CounterEvent.Reachable s → CounterEvent.Reachable s.clear

/-- Invariant of every reachable `CounterEvent` state: the event is signalled
only while the counter is zero. -/
theorem CounterEvent.reachable_inv {s : CounterEvent} (h : s.Reachable) :
    s.eventSet = true → s.counter = 0 := by
  induction h with
  | init => intro h; rfl
  | set h ih =>
    rename_i s
    simp only [CounterEvent.set]
    by_cases hp : s.counter > 0
    · simp only [hp, if_true]
      by_cases hc : s.counter - 1 = 0
      · simp [hc]
      · simp only [hc, if_false]
        intro hev
        exact absurd (ih hev) (by omega)
    · have h0 : s.counter = 0 := by omega
      simp [hp, h0]
  | clear h ih =>
    rename_i s
    simp only [CounterEvent.clear]
    intro hev
    by_cases hc : s.counter = 0 ∧ s.eventSet = true
    · rw [if_pos hc] at hev
      exact absurd hev (by simp)
    · rw [if_neg hc] at hev
      exact absurd ⟨ih hev, hev⟩ hc

/-- Claim C1: for every reachable `CounterEvent` state, `clear()` increments the
internal counter and leaves the event flag unsignalled afterwards (so repeated
`clear()` calls are idempotent with respect to the flag); `set()` decrements the
counter when it is positive and signals the event exactly when the counter has
reached zero, so a `set()` performed while the counter is still positive leaves
the event unsignalled. -/
theorem counter_event_clear_set_spec {s : CounterEvent} (h : s.Reachable) :
    (s.clear.counter = s.counter + 1 ∧ s.clear.eventSet = false) ∧
    (s.counter > 0 → s.set.counter = s.counter - 1) ∧
    (s.set.eventSet = true ↔ s.set.counter = 0) ∧
    (s.counter > 1 → s.set.eventSet = false) := by
  have inv := CounterEvent.reachable_inv h
  refine ⟨⟨rfl, ?_⟩, ?_, ?_, ?_⟩
  · simp only [CounterEvent.clear]
    by_cases he : s.eventSet = true
    · have h0 := inv he
      simp [h0, he]
    · simp only [Bool.not_eq_true] at he
      simp [he]
  · intro hp
    simp only [CounterEvent.set]
    simp [hp]
  · simp only [CounterEvent.set]
    by_cases hp : s.counter > 0
    · by_cases hc : s.counter - 1 = 0
      · simp [hp, hc]
      · have he : s.eventSet = false := by
          rcases Bool.eq_false_or_eq_true s.eventSet with hb | hb
          · exact absurd (inv hb) (by omega)
          · exact hb
        simp [hp, hc, he]
    · have h0 : s.counter = 0 := by omega
      simp [hp, h0]
  · intro hp
    simp only [CounterEvent.set]
    have hp0 : s.counter > 0 := by omega
    have hc : ¬(s.counter - 1 = 0) := by omega
    have he : s.eventSet = false := by
      rcases Bool.eq_false_or_eq_true s.eventSet with hb | hb
      · exact absurd (inv hb) (by omega)
      · exact hb
    simp [hp0, hc, he]

/-- Witness for C1 at the concrete reachable state `init.set` (the engine
constructs the forward event and immediately calls `set()`). -/
theorem counter_event_clear_set_spec_witness :
    (CounterEvent.init.set.clear.counter = CounterEvent.init.set.counter + 1 ∧
      CounterEvent.init.set.clear.eventSet = false) ∧
    (CounterEvent.init.set.counter > 0 →
      CounterEvent.init.set.set.counter = CounterEvent.init.set.counter - 1) ∧
    (CounterEvent.init.set.set.eventSet = true ↔ CounterEvent.init.set.set.counter = 0) ∧
    (CounterEvent.init.set.counter > 1 → CounterEvent.init.set.set.eventSet = false) :=
  counter_event_clear_set_spec (CounterEvent.Reachable.set CounterEvent.Reachable.init)

/-! ### do_prefill_default (engine.py lines 242-258)

```python
def do_prefill_default(self):
    # decoding if no waiting
    scheduler = self.scheduler
    if not scheduler.has_waiting():
        return False
    num_running = scheduler.num_running()
    num_waiting = scheduler.num_waiting()
    max_batches = self.scheduler_config.max_batches
    # prefill if too much waiting
    permitted_waiting = 4 if (self.engine.engine_config.role != EngineRole.Prefill) else 1
    if num_waiting >= permitted_waiting:
        return True
    # prefill if no enough running
    if num_running < max_batches * 0.5:
        return True
    # decoding
    return False
```

The scheduler accessors `has_waiting()`, `num_waiting()`, `num_running()` live in
`lmdeploy/pytorch/paging` (outside the given sources); the counts are passed as
arguments and `has_waiting()` is `num_waiting > 0`.  The Python float comparison
`num_running < max_batches * 0.5` is exact for integer operands and is expressed
over the integers as `2 * num_running < max_batches`. -/

/-- `InputsMakerAsync.do_prefill_default`: the engine-side prefill/decode decision
for a non-data-parallel engine. -/
def do_prefill_default (role : EngineRole) (num_waiting num_running max_batches : Nat) :
    Bool :=
  if num_waiting = 0 then false
  else
    let permitted_waiting := if role ≠ EngineRole.Prefill then 4 else 1
    if num_waiting ≥ permitted_waiting then true
    else if 2 * num_running < max_batches then true
    else false

/-- Claim C2 counterexample: on a Hybrid-role engine with no waiting sequence,
no running sequence and `max_batches = 2`, the claim's condition (b)
(`num_running < max_batches * 0.5`) holds, yet the code chooses decode because
`scheduler.has_waiting()` is false — so "prefill iff (a) or (b)" fails here. -/
theorem do_prefill_default_iff_counterexample :
    ¬(do_prefill_default EngineRole.Hybrid 0 0 2 = true ↔ (0 ≥ 4 ∨ 2 * 0 < 2)) := by
  decide

/-- Claim C2 (amended): the decision chooses prefill iff at least one sequence is
waiting AND (`num_waiting ≥ permitted_waiting` — 4 unless the role is pure
Prefill, else 1 — or `num_running < max_batches * 0.5`); otherwise decode. -/
theorem do_prefill_default_spec (role : EngineRole) (nw nr mb : Nat) :
    do_prefill_default role nw nr mb = true ↔
      (1 ≤ nw ∧ ((if role ≠ EngineRole.Prefill then 4 else 1) ≤ nw ∨ 2 * nr < mb)) := by
  unfold do_prefill_default
  split_ifs with h0 h1 h2 <;> simp_all <;> omega

/-! ### Admission-time truncation of max_new_tokens (engine.py lines 474-485, 573-583)

```python
def _get_max_session_len(self):
    session_len = self.scheduler_config.max_session_len
    max_tokens = (self.cache_config.num_gpu_blocks * self.cache_config.block_size)
    window_size = self.cache_config.window_size
    if window_size > 0 and window_size <= max_tokens:
        max_tokens = (1 << 63) - 1
    if session_len is None:
        session_len = max_tokens
    else:
        session_len = min(max_tokens, session_len)
    return session_len - self.cache_config.block_size

def __update_max_new_tokens(msg):
    max_session_len = self.max_session_len
    sampling_param = msg.sampling_param
    max_new_tokens = sampling_param.max_new_tokens
    num_all_tokens = msg.num_all_tokens()
    if max_new_tokens + num_all_tokens > max_session_len:
        sampling_param.max_new_tokens = max_session_len - num_all_tokens
```
-/

/-- `Engine._get_max_session_len`: the engine-wide session length cap, over
unbounded integers (Python ints). -/
def get_max_session_len (session_len : Option Int)
    (num_gpu_blocks block_size window_size : Int) : Int :=
  let max_tokens := num_gpu_blocks * block_size
  let max_tokens := if window_size > 0 ∧ window_size ≤ max_tokens then 2 ^ 63 - 1 else max_tokens
  let sl := match session_len with
    | none => max_tokens
    | some v => min max_tokens v
  sl - block_size

/-- `Engine._add_message.__update_max_new_tokens`: the value of
`sampling_param.max_new_tokens` after admission. -/
def update_max_new_tokens (max_session_len num_all_tokens max_new_tokens : Int) : Int :=
  if max_new_tokens + num_all_tokens > max_session_len then max_session_len - num_all_tokens
  else max_new_tokens

/-- Claim C6: at admission, if `max_new_tokens` plus the tokens already held
exceeds the engine's max session length then `max_new_tokens` is truncated to
`max_session_len - num_all_tokens`, and in every case the sum of held tokens and
the admitted `max_new_tokens` never exceeds `max_session_len`. -/
theorem update_max_new_tokens_spec (msl na mn : Int) :
    (mn + na > msl → update_max_new_tokens msl na mn = msl - na) ∧
    na + update_max_new_tokens msl na mn ≤ msl := by
  unfold update_max_new_tokens
  constructor
  · intro h
    simp [h]
  · split_ifs with h <;> omega

/-- Witness for C6 at `max_session_len = 12`, 10 held tokens and
`max_new_tokens = 5`. -/
theorem update_max_new_tokens_spec_witness :
    ((5 : Int) + 10 > 12 → update_max_new_tokens 12 10 5 = 12 - 10) ∧
    (10 : Int) + update_max_new_tokens 12 10 5 ≤ 12 :=
  update_max_new_tokens_spec 12 10 5

/-! ### Admission of a first sequence (engine.py lines 571-628)

```python
def _add_message(self, reqs):
    ...
    for req in reqs:
        ...
        sess = scheduler.sessions[session_id]
        sampling_param = req.data['sampling_param']
        ...
        if len(sess.sequences) == 0:
            migration_request = req.data.get('migration_request')
            assert len(req.data['token_ids']) > 0, ('Empty input is not allowed.')
            sess.add_sequence(req.data['token_ids'], sampling_param=sampling_param, ...)
            msg = next(iter(sess.sequences.values()))
            __update_max_new_tokens(msg)
            scheduler.add_sequence(msg)
            if migration_request:
                self.scheduler._set_message_status(msg, MessageStatus.WAITING_MIGRATION)
                self.migration_event.set()
        else:
            ...
```

A failed Python `assert` raises `AssertionError`; nothing in `_add_message` or
`_on_add_message` catches it and no `_response` call is made on that path, so the
exception escapes the admission handler.  `scheduler.add_sequence` is scheduler
code outside the given sources; per the spec a sequence "created by `add_message`
begins in WAITING". -/

/-- The fields of an `ADD_MESSAGE` request relevant to admission of the first
sequence of a session. -/
structure AddMessageReqData where
  session_id : Nat
  token_ids : List Int
  max_new_tokens : Int
  has_migration_request : Bool
deriving DecidableEq, Repr

/-- The sequence produced by a successful first-sequence admission. -/
structure AdmittedSeq where
  token_ids : List Int
  max_new_tokens : Int
  status : MessageStatus
  num_new_tokens : Int
deriving DecidableEq, Repr

/-- Outcome of processing one add-message request: the admitted sequence (if any),
the per-request responses posted to the caller during admission, and an uncaught
exception escaping the handler (if any). -/
structure AddMessageOutcome where
  admitted : Option AdmittedSeq
  responses : List ResponseType
  raised : Option String
deriving DecidableEq, Repr

/-- One request of `Engine._add_message`, restricted to the branch creating the
first sequence of its session (`len(sess.sequences) == 0`). -/
def add_message_first_seq (max_session_len : Int) (req : AddMessageReqData) :
    AddMessageOutcome :=
  if req.token_ids.length > 0 then
    let num_all_tokens : Int := req.token_ids.length
    let mnt := update_max_new_tokens max_session_len num_all_tokens req.max_new_tokens
    { admitted := some { token_ids := req.token_ids
                         max_new_tokens := mnt
                         status := if req.has_migration_request then
                             MessageStatus.WAITING_MIGRATION
                           else MessageStatus.WAITING
                         num_new_tokens := 0 }
      responses := []
      raised := none }
  else
    { admitted := none, responses := [], raised := some "Empty input is not allowed." }

/-- A concrete add-message request with an empty token list. -/
def emptyInputReq : AddMessageReqData :=
  { session_id := 1, token_ids := [], max_new_tokens := 10, has_migration_request := false }

/-- Claim C3 counterexample: an add-message request with an empty token list for
an existing, empty session makes `_add_message` raise the assertion
`Empty input is not allowed.` and post no per-request response at all — the
error is not reported to the caller as a per-request failure (and, via the
loop-task done callback, an exception escaping the preprocess loop cancels every
engine loop task rather than leaving the engine serving). -/
theorem add_message_empty_input_counterexample :
    (add_message_first_seq 100 emptyInputReq).raised = some "Empty input is not allowed." ∧
    (add_message_first_seq 100 emptyInputReq).responses = [] ∧
    (add_message_first_seq 100 emptyInputReq).admitted = none := by
  refine ⟨rfl, rfl, rfl⟩

/-- Claim C3 (amended): an AddMessage request carrying an empty token list
(creating the first sequence of its session) fails the assertion
`Empty input is not allowed.` inside `Engine._add_message`; no sequence is
admitted and no per-request failure response is posted — the `AssertionError`
propagates out of the admission handler instead of being reported to the
caller. -/
theorem add_message_empty_input_spec (msl : Int) (req : AddMessageReqData)
    (h : req.token_ids = []) :
    add_message_first_seq msl req =
      { admitted := none, responses := [], raised := some "Empty input is not allowed." } := by
  unfold add_message_first_seq
  simp [h]

/-- Witness for the amended C3 at a concrete empty-input request. -/
theorem add_message_empty_input_spec_witness :
    add_message_first_seq 100 emptyInputReq =
      { admitted := none, responses := [], raised := some "Empty input is not allowed." } :=
  add_message_empty_input_spec 100 emptyInputReq rfl

/-! ### Migration execution for one sequence (engine.py lines 1004-1024)

```python
for msg in migration_running:
    migration_execution_requests = []
    migration_request = msg.migration_request
    prefill_block_ids = migration_request.remote_block_ids
    decode_block_ids = list(self.scheduler.block_manager.get_block_table(msg=msg))

    if not migration_request.is_dummy_prefill:
        assert len(prefill_block_ids) == len(decode_block_ids), (...)
        migration_execution_requests.append((
            migration_request.remote_engine_id,
            list(zip(prefill_block_ids, decode_block_ids)),
        ))
        migration_inputs = MigrationExecutionBatch(protocol=migration_request.protocol,
                                                   requests=migration_execution_requests)
        await self.executor.migrate(migration_inputs)
        ...
```

A failed `assert` raises `AssertionError` out of `_async_loop_migration`; no
`FINISH` response is posted on that path, and the loop-task done callback then
cancels every engine loop task. -/

/-- The migration request attached to a `WAITING_MIGRATION` sequence
(`lmdeploy.pytorch.disagg.conn.protocol.MigrationRequest`, fields as used by
`engine.py`). -/
structure MigrationRequest where
  remote_engine_id : Nat
  remote_session_id : Nat
  remote_block_ids : List Nat
  remote_token_id : Int
  is_dummy_prefill : Bool
  protocol : Nat
deriving DecidableEq, Repr

/-- `lmdeploy.pytorch.disagg.messages.MigrationExecutionBatch` as constructed by
`_async_loop_migration`. -/
structure MigrationExecutionBatch where
  protocol : Nat
  requests : List (Nat × List (Nat × Nat))
deriving DecidableEq, Repr

/-- The per-sequence migration-batch construction of `Engine._async_loop_migration`:
given the sequence's migration request and its locally allocated decode block
table, either skip (dummy prefill, `Except.ok none`), build the pairing batch, or
fail the block-count assertion (`Except.error`). -/
def migrate_one (mreq : MigrationRequest) (decode_block_ids : List Nat) :
    Except String (Option MigrationExecutionBatch) :=
  if mreq.is_dummy_prefill then Except.ok none
  else if mreq.remote_block_ids.length = decode_block_ids.length then
    Except.ok (some { protocol := mreq.protocol
                      requests := [(mreq.remote_engine_id,
                        mreq.remote_block_ids.zip decode_block_ids)] })
  else Except.error "prefill block ids must equal to decode block ids"

/-- A concrete non-dummy migration request carrying three remote block ids. -/
def mismatchMigrationReq : MigrationRequest := ⟨0, 0, [7, 8, 9], 1, false, 0⟩

/-- Claim C4 counterexample: a non-dummy migration with remote blocks `[7, 8, 9]`
but only two local decode blocks `[2, 5]` does not terminate that sequence's
stream with `FINISH` while the engine keeps serving: the block-count assertion
raises, the exception escapes `_async_loop_migration`, and the loop-task done
callback cancels every engine loop task. -/
theorem migration_mismatch_counterexample :
    migrate_one mismatchMigrationReq [2, 5] =
      Except.error "prefill block ids must equal to decode block ids" ∧
    (migrate_one mismatchMigrationReq [2, 5]).isOk = false := by
  refine ⟨rfl, rfl⟩

/-- Claim C4 (amended): for a non-dummy-prefill `WAITING_MIGRATION` sequence, a
mismatch between the number of remote prefill block ids and the number of
locally allocated decode block ids fails the assertion in
`_async_loop_migration`; the `AssertionError` escapes the migration loop (no
`FINISH` response is posted there, and the done callback then cancels all engine
loop tasks).  When the counts match, the constructed `MigrationExecutionBatch`
pairs the blocks elementwise. -/
theorem migration_mismatch_spec (mreq : MigrationRequest) (dids : List Nat)
    (hdummy : mreq.is_dummy_prefill = false) :
    (mreq.remote_block_ids.length ≠ dids.length →
      migrate_one mreq dids =
        Except.error "prefill block ids must equal to decode block ids") ∧
    (mreq.remote_block_ids.length = dids.length →
      migrate_one mreq dids =
        Except.ok (some ⟨mreq.protocol,
          [(mreq.remote_engine_id, mreq.remote_block_ids.zip dids)]⟩)) := by
  unfold migrate_one
  constructor
  · intro h
    simp [hdummy, h]
  · intro h
    simp [hdummy, h]

/-- Witness for the amended C4 at the mismatched input `[7, 8, 9]` vs `[2, 5]`. -/
theorem migration_mismatch_spec_witness :
    (mismatchMigrationReq.remote_block_ids.length ≠ ([2, 5] : List Nat).length →
      migrate_one mismatchMigrationReq [2, 5] =
        Except.error "prefill block ids must equal to decode block ids") ∧
    (mismatchMigrationReq.remote_block_ids.length = ([2, 5] : List Nat).length →
      migrate_one mismatchMigrationReq [2, 5] =
        Except.ok (some ⟨mismatchMigrationReq.protocol,
          [(mismatchMigrationReq.remote_engine_id,
            mismatchMigrationReq.remote_block_ids.zip [2, 5])]⟩)) :=
  migration_mismatch_spec mismatchMigrationReq [2, 5] rfl

/-! ### Response posting (engine.py lines 465-472, 499-515, 958-966, 1031)

```python
def _response(self, resp, resp_type, data=None, err_msg=''):
    if resp.type == ResponseType.FINISH:
        return
    resp.type = resp_type
    resp.data = data
    resp.err_msg = err_msg
    self.req_manager.response(resp)

def __send_resp(out):
    resp_type = (ResponseType.FINISH if out.finish else ResponseType.SUCCESS)
    self._response(out.resp, resp_type, data=...)
```

Two further sites touch the same generation handle while bypassing the
`_response` guard:

```python
def _on_stop_session(self, reqs, **kwargs):
    ...
    for seq in session.sequences.values():
        _resp = getattr(seq, 'resp', None)
        if _resp is not None:
            _resp.type = ResponseType.FINISH
            self.req_manager.response(_resp)     # lines 509-512, unguarded

# _async_loop_migration, line 1031:
    msg.resp.type = ResponseType.SUCCESS         # direct type reset, no emission
```
-/

/-- A generation response handle: the mutable `type` field the guard in
`_response` reads and writes. -/
structure Response where
  type : ResponseType
deriving DecidableEq, Repr

/-- `Engine._response`: post one response through a handle.  Returns the updated
handle and the emitted response type (`none` when the guard
`resp.type == ResponseType.FINISH` suppresses emission). -/
def engine_response (resp : Response) (resp_type : ResponseType) :
    Response × Option ResponseType :=
  if resp.type = ResponseType.FINISH then (resp, none)
  else ({ type := resp_type }, some resp_type)

/-- `__send_resp` of `Engine._async_loop_send_responses`: a generation step posts
`FINISH` when the output is final and `SUCCESS` otherwise, through the guarded
`_response`. -/
def send_resp (resp : Response) (finish : Bool) : Response × Option ResponseType :=
  engine_response resp (if finish then ResponseType.FINISH else ResponseType.SUCCESS)

/-- The engine operations that touch one generation response handle:
a generation step (`__send_resp`, guarded), the direct `FINISH` emission of
`_on_stop_session` (lines 509-512, unguarded), and the `resp.type = SUCCESS`
reset of `_async_loop_migration` (line 1031, no emission). -/
inductive RespEvent where
  | genStep (finish : Bool)
  | stopSession
  | migrationReset
deriving DecidableEq, Repr

/-- One handle-touching engine operation: the updated handle and the response
type emitted by it (if any). -/
def resp_step : Response → RespEvent → Response × Option ResponseType
  | resp, RespEvent.genStep f => send_resp resp f
  | _, RespEvent.stopSession => ({ type := ResponseType.FINISH }, some ResponseType.FINISH)
  | _, RespEvent.migrationReset => ({ type := ResponseType.SUCCESS }, none)

/-- The emission trace of a handle under a sequence of handle-touching engine
operations. -/
def resp_trace : Response → List RespEvent → Response × List ResponseType
  | resp, [] => (resp, [])
  | resp, e :: es =>
    let step := resp_step resp e
    let rest := resp_trace step.1 es
    (rest.1, step.2.toList ++ rest.2)

/-- Once a handle's type is `FINISH`, every later generation step through it
emits nothing and leaves the handle unchanged. -/
theorem resp_trace_gen_after_finish (fs : List Bool) :
    resp_trace { type := ResponseType.FINISH } (fs.map RespEvent.genStep) =
      ({ type := ResponseType.FINISH }, []) := by
  induction fs with
  | nil => rfl
  | cons f fs ih => simp [resp_trace, resp_step, send_resp, engine_response, ih]

/-- The trace of generation steps alone, started on a not-yet-finished handle,
is some number of `SUCCESS` responses, optionally closed by a single
`FINISH`. -/
theorem resp_trace_gen (flags : List Bool) (resp : Response)
    (h : resp.type ≠ ResponseType.FINISH) :
    ∃ n, (resp_trace resp (flags.map RespEvent.genStep)).2 =
        List.replicate n ResponseType.SUCCESS ∨
      (resp_trace resp (flags.map RespEvent.genStep)).2 =
        List.replicate n ResponseType.SUCCESS ++ [ResponseType.FINISH] := by
  induction flags generalizing resp with
  | nil => exact ⟨0, Or.inl rfl⟩
  | cons f fs ih =>
    cases f with
    | false =>
      have hstep : resp_step resp (RespEvent.genStep false) =
          ({ type := ResponseType.SUCCESS }, some ResponseType.SUCCESS) := by
        simp [resp_step, send_resp, engine_response, h]
      obtain ⟨n, hn⟩ := ih { type := ResponseType.SUCCESS } (by simp)
      refine ⟨n + 1, ?_⟩
      rcases hn with hn | hn
      · exact Or.inl (by simp [resp_trace, hstep, hn, List.replicate_succ])
      · exact Or.inr (by simp [resp_trace, hstep, hn, List.replicate_succ])
    | true =>
      have hstep : resp_step resp (RespEvent.genStep true) =
          ({ type := ResponseType.FINISH }, some ResponseType.FINISH) := by
        simp [resp_step, send_resp, engine_response, h]
      refine ⟨0, Or.inr ?_⟩
      simp [resp_trace, hstep, resp_trace_gen_after_finish fs]

/-- Claim C5 counterexample: on a fresh handle, a generation stream that posts
its terminal `FINISH` and is then followed by a `StopSession` for the same
session emits a second `FINISH` through the very same handle —
`_on_stop_session` sets `resp.type = FINISH` and calls
`req_manager.response(resp)` directly, bypassing the `_response` guard — so the
delivered trace is `[FINISH, FINISH]`: a further response is emitted after
`FINISH`, and the trace does not match `SUCCESS* FINISH`. -/
theorem response_after_finish_counterexample :
    (resp_trace { type := ResponseType.SUCCESS }
        [RespEvent.genStep true, RespEvent.stopSession]).2 =
      [ResponseType.FINISH, ResponseType.FINISH] ∧
    ¬(∃ n, (resp_trace { type := ResponseType.SUCCESS }
          [RespEvent.genStep true, RespEvent.stopSession]).2 =
        List.replicate n ResponseType.SUCCESS ∨
      (resp_trace { type := ResponseType.SUCCESS }
          [RespEvent.genStep true, RespEvent.stopSession]).2 =
        List.replicate n ResponseType.SUCCESS ++ [ResponseType.FINISH]) := by
  have he : (resp_trace { type := ResponseType.SUCCESS }
      [RespEvent.genStep true, RespEvent.stopSession]).2 =
      [ResponseType.FINISH, ResponseType.FINISH] := rfl
  refine ⟨he, ?_⟩
  simp only [he]
  rintro ⟨n, h | h⟩
  · have hlen : (2 : Nat) = n := by simpa using congrArg List.length h
    subst hlen
    simp [List.replicate] at h
  · have hlen : (2 : Nat) = n + 1 := by simpa using congrArg List.length h
    have hn : n = 1 := by omega
    subst hn
    simp [List.replicate] at h

/-- Claim C5 (amended): once `FINISH` has been posted on a generation response
handle, the guarded `_response` path emits nothing further through it, and the
response-type trace produced by the generation response loop alone
(`__send_resp` posts on a fresh handle) matches `SUCCESS* FINISH` (at most one
terminal `FINISH`, nothing after it; `SUCCESS*` alone while the stream has not
yet finished).  Two paths bypass the guard, so the property is not preserved
under interleaving with them: `_on_stop_session` sets the handle to `FINISH`
and emits `FINISH` unconditionally (a `StopSession` after the terminal `FINISH`
emits a second `FINISH`), and `_async_loop_migration` resets the handle's type
to `SUCCESS` without emitting, re-arming the guard. -/
theorem response_stream_success_star_finish (resp : Response) (flags : List Bool)
    (h : resp.type ≠ ResponseType.FINISH) :
    (∀ t, (engine_response { type := ResponseType.FINISH } t).2 = none) ∧
    (∀ fs : List Bool,
      resp_trace { type := ResponseType.FINISH } (fs.map RespEvent.genStep) =
        ({ type := ResponseType.FINISH }, [])) ∧
    (∃ n, (resp_trace resp (flags.map RespEvent.genStep)).2 =
        List.replicate n ResponseType.SUCCESS ∨
      (resp_trace resp (flags.map RespEvent.genStep)).2 =
        List.replicate n ResponseType.SUCCESS ++ [ResponseType.FINISH]) ∧
    (∀ r, resp_step r RespEvent.stopSession =
      ({ type := ResponseType.FINISH }, some ResponseType.FINISH)) ∧
    (∀ r, resp_step r RespEvent.migrationReset =
      ({ type := ResponseType.SUCCESS }, none)) :=
  ⟨fun _ => rfl, resp_trace_gen_after_finish, resp_trace_gen flags resp h,
   fun _ => rfl, fun _ => rfl⟩

/-- Witness for the amended C5: a fresh handle streaming two `SUCCESS` steps and
a closing `FINISH`. -/
theorem response_stream_success_star_finish_witness :
    (∀ t, (engine_response { type := ResponseType.FINISH } t).2 = none) ∧
    (∀ fs : List Bool,
      resp_trace { type := ResponseType.FINISH } (fs.map RespEvent.genStep) =
        ({ type := ResponseType.FINISH }, [])) ∧
    (∃ n, (resp_trace { type := ResponseType.SUCCESS }
        ([false, false, true].map RespEvent.genStep)).2 =
        List.replicate n ResponseType.SUCCESS ∨
      (resp_trace { type := ResponseType.SUCCESS }
        ([false, false, true].map RespEvent.genStep)).2 =
        List.replicate n ResponseType.SUCCESS ++ [ResponseType.FINISH]) ∧
    (∀ r, resp_step r RespEvent.stopSession =
      ({ type := ResponseType.FINISH }, some ResponseType.FINISH)) ∧
    (∀ r, resp_step r RespEvent.migrationReset =
      ({ type := ResponseType.SUCCESS }, none)) :=
  response_stream_success_star_finish { type := ResponseType.SUCCESS } [false, false, true]
    (by decide)

/-! ### End-session handling (engine.py lines 517-531)

```python
def _on_end_session(self, reqs, **kwargs):
    for req in reqs:
        session_id = req.data['session_id']
        resp = req.data.get('response', True)
        resp_type = ResponseType.SESSION_NOT_EXIST
        if session_id in self.scheduler.sessions:
            msgs = list(self.scheduler.sessions[session_id].sequences.values())
            if len(msgs) > 0 and msgs[0].preserve_cache:
                self.scheduler._set_message_status(msgs[0], MessageStatus.TO_BE_MIGRATED)
            else:
                self.scheduler.end_session(session_id)
            resp_type = ResponseType.SUCCESS
        if resp:
            self._response(req.resp, resp_type)
```

`scheduler.end_session` and `scheduler._set_message_status` are scheduler
internals outside the given sources; per the spec, ending a session destroys the
session and its sequences, and `_set_message_status` rewrites one sequence's
status.  The session table is modelled as an association list in insertion
order. -/

/-- The per-sequence attributes `_on_end_session` touches. -/
structure SchedSeq where
  preserve_cache : Bool
  status : MessageStatus
deriving DecidableEq, Repr

/-- A session: its sequences in insertion order (`sequences.values()`). -/
structure Session where
  seqs : List SchedSeq
deriving DecidableEq, Repr

/-- `session_id in self.scheduler.sessions` / `sessions[session_id]`. -/
def lookup_session : List (Nat × Session) → Nat → Option Session
  | [], _ => none
  | (k, s) :: rest, sid => if k = sid then some s else lookup_session rest sid

/-- `scheduler.end_session(session_id)`: the session and its sequences are
destroyed (removed from the session table). -/
def remove_session (sessions : List (Nat × Session)) (sid : Nat) : List (Nat × Session) :=
  sessions.filter (fun p => p.1 ≠ sid)

/-- Rewrite the status of a session's first sequence. -/
def update_first (s : Session) (st : MessageStatus) : Session :=
  { seqs := match s.seqs with
    | [] => []
    | f :: r => { f with status := st } :: r }

/-- `scheduler._set_message_status(msgs[0], status)`: rewrite the status of the
session's first sequence, keeping the session. -/
def set_first_status : List (Nat × Session) → Nat → MessageStatus → List (Nat × Session)
  | [], _, _ => []
  | (k, s) :: rest, sid, st =>
    if k = sid then (k, update_first s st) :: set_first_status rest sid st
    else (k, s) :: set_first_status rest sid st

/-- `Engine._on_end_session` for one request (with the default
`response = True`): the updated session table and the response type passed to
`_response`. -/
def on_end_session (sessions : List (Nat × Session)) (sid : Nat) :
    List (Nat × Session) × ResponseType :=
  match lookup_session sessions sid with
  | none => (sessions, ResponseType.SESSION_NOT_EXIST)
  | some sess =>
    match sess.seqs with
    | [] => (remove_session sessions sid, ResponseType.SUCCESS)
    | first :: _ =>
      if first.preserve_cache then
        (set_first_status sessions sid MessageStatus.TO_BE_MIGRATED, ResponseType.SUCCESS)
      else
        (remove_session sessions sid, ResponseType.SUCCESS)

/-- Removing a session makes it unfindable. -/
theorem lookup_remove_session (sessions : List (Nat × Session)) (sid : Nat) :
    lookup_session (remove_session sessions sid) sid = none := by
  induction sessions with
  | nil => rfl
  | cons p rest ih =>
    by_cases h : p.1 = sid
    · simpa [remove_session, h] using ih
    · simpa [remove_session, lookup_session, h] using ih

/-- Rewriting the first sequence's status keeps the session findable with exactly
that rewrite applied. -/
theorem lookup_set_first_status (sessions : List (Nat × Session)) (sid : Nat)
    (st : MessageStatus) (sess : Session) (h : lookup_session sessions sid = some sess) :
    lookup_session (set_first_status sessions sid st) sid = some (update_first sess st) := by
  induction sessions with
  | nil => simp [lookup_session] at h
  | cons p rest ih =>
    obtain ⟨k, s⟩ := p
    by_cases hk : k = sid
    · subst hk
      simp [lookup_session] at h
      subst h
      simp [set_first_status, lookup_session]
    · simp [lookup_session, hk] at h
      simpa [set_first_status, lookup_session, hk] using ih h

/-- Claim C7: on an EndSession request, a missing session id yields
`SESSION_NOT_EXIST` with no state change; an existing session whose first
sequence has `preserve_cache` set transitions that sequence to `TO_BE_MIGRATED`
and keeps the session; every other existing session is destroyed together with
its sequences; in both existing-session cases the caller receives `SUCCESS`. -/
theorem on_end_session_spec (sessions : List (Nat × Session)) (sid : Nat) :
    (lookup_session sessions sid = none →
      on_end_session sessions sid = (sessions, ResponseType.SESSION_NOT_EXIST)) ∧
    (∀ sess first rest, lookup_session sessions sid = some sess →
      sess.seqs = first :: rest → first.preserve_cache = true →
      (on_end_session sessions sid).2 = ResponseType.SUCCESS ∧
      lookup_session (on_end_session sessions sid).1 sid =
        some { seqs := { first with status := MessageStatus.TO_BE_MIGRATED } :: rest }) ∧
    (∀ sess, lookup_session sessions sid = some sess →
      (sess.seqs.head?.elim True (fun f => f.preserve_cache = false)) →
      (on_end_session sessions sid).2 = ResponseType.SUCCESS ∧
      lookup_session (on_end_session sessions sid).1 sid = none) := by
  refine ⟨?_, ?_, ?_⟩
  · intro h
    simp [on_end_session, h]
  · intro sess first rest hse hseq hpc
    have h1 : (on_end_session sessions sid) =
        (set_first_status sessions sid MessageStatus.TO_BE_MIGRATED, ResponseType.SUCCESS) := by
      simp [on_end_session, hse, hseq, hpc]
    rw [h1]
    refine ⟨rfl, ?_⟩
    rw [lookup_set_first_status sessions sid MessageStatus.TO_BE_MIGRATED sess hse]
    simp [update_first, hseq]
  · intro sess hse hpc
    cases hseq : sess.seqs with
    | nil =>
      have h1 : (on_end_session sessions sid) =
          (remove_session sessions sid, ResponseType.SUCCESS) := by
        simp [on_end_session, hse, hseq]
      rw [h1]
      exact ⟨rfl, lookup_remove_session sessions sid⟩
    | cons first rest =>
      rw [hseq] at hpc
      simp only [List.head?_cons, Option.elim] at hpc
      have h1 : (on_end_session sessions sid) =
          (remove_session sessions sid, ResponseType.SUCCESS) := by
        simp [on_end_session, hse, hseq, hpc]
      rw [h1]
      exact ⟨rfl, lookup_remove_session sessions sid⟩

/-- A concrete session table: session 1 has one preserve-cache sequence. -/
def demoSessions : List (Nat × Session) :=
  [(1, { seqs := [{ preserve_cache := true, status := MessageStatus.RUNNING }] })]

/-- Witness for C7: ending session 1 of `demoSessions` keeps the session and
moves its first sequence to `TO_BE_MIGRATED` with a `SUCCESS` response. -/
theorem on_end_session_spec_witness :
    (on_end_session demoSessions 1).2 = ResponseType.SUCCESS ∧
    lookup_session (on_end_session demoSessions 1).1 1 =
      some { seqs := [{ preserve_cache := true, status := MessageStatus.TO_BE_MIGRATED }] } :=
  (on_end_session_spec demoSessions 1).2.1
    { seqs := [{ preserve_cache := true, status := MessageStatus.RUNNING }] }
    { preserve_cache := true, status := MessageStatus.RUNNING } [] rfl rfl rfl

/-! ### all_ids gathering (engine.py lines 839-854)

```python
def __gather_all_ids(seqs, sampling_inputs):
    if sampling_inputs.repetition_penalty is None and not any(sampling_inputs.logits_processors):
        return None
    batch = len(seqs)
    max_len = max(seq.num_all_ids for seq in seqs)
    pad_id = self.model_config.bos_token_id
    pad_id = 0 if pad_id is None else pad_id
    output = torch.full((batch, max_len), pad_id, dtype=torch.int64)
    for idx, seq in enumerate(seqs):
        h_len = seq.num_all_ids
        if h_len == 0:
            continue
        h_ids = torch.from_numpy(seq.all_ids)
        output[idx, -h_len:] = h_ids
    return output
```

`SamplingInputs.from_sampling_params` lives in
`lmdeploy/pytorch/engine/logits_process.py`, outside the given sources, and is
modelled from the spec. -/

/-- The per-sequence sampling state `__gather_all_ids` depends on:
the full token history, the repetition penalty (sentinel `1` means disabled) and
whether a logits processor is attached. -/
structure SeqSample where
  all_ids : List Int
  repetition_penalty : Rat
  has_logits_processor : Bool
deriving DecidableEq, Repr

/-- The two fields of the batched `SamplingInputs` that `__gather_all_ids`
reads. -/
structure SamplingInputs where
  repetition_penalty : Option (List Rat)
  logits_processors : List Bool
deriving DecidableEq, Repr

/-- Modelled from the spec: `SamplingInputs.from_sampling_params`
(`lmdeploy/pytorch/engine/logits_process.py`, not among the given sources)
batches the per-sequence sampling parameters; per the spec sentinel defaults,
the batched `repetition_penalty` is `None` exactly when no sequence has an
active (non-1) repetition penalty, and `logits_processors` carries each
sequence's processors. -/
def SamplingInputs.from_sampling_params (seqs : List SeqSample) : SamplingInputs :=
  { repetition_penalty :=
      if seqs.any (fun s => s.repetition_penalty ≠ 1) then
        some (seqs.map (fun s => s.repetition_penalty))
      else none
    logits_processors := seqs.map (fun s => s.has_logits_processor) }

/-- `__gather_all_ids` of `Engine._make_forward_inputs`: `None` unless repetition
penalty or a logits processor is active; otherwise each sequence's full token
history left-padded with `pad_id` to the batch maximum. -/
def gather_all_ids (pad_id : Int) (seqs : List SeqSample) (si : SamplingInputs) :
    Option (List (List Int)) :=
  if si.repetition_penalty = none ∧ ¬(si.logits_processors.any id) then none
  else
    let max_len := (seqs.map (fun s => s.all_ids.length)).foldl max 0
    some (seqs.map (fun s => List.replicate (max_len - s.all_ids.length) pad_id ++ s.all_ids))

/-- Claim C8: the `all_ids` bundle entry is non-`None` iff at least one scheduled
sequence has an active repetition penalty or a logits processor attached; in
every other case it is `None` and the history gather is skipped. -/
theorem gather_all_ids_spec (pad_id : Int) (seqs : List SeqSample) :
    gather_all_ids pad_id seqs (SamplingInputs.from_sampling_params seqs) ≠ none ↔
      ∃ s ∈ seqs, s.repetition_penalty ≠ 1 ∨ s.has_logits_processor = true := by
  by_cases hx : ∃ s ∈ seqs, s.repetition_penalty ≠ 1 ∨ s.has_logits_processor = true
  · refine iff_of_true ?_ hx
    obtain ⟨s, hs, hact⟩ := hx
    unfold gather_all_ids SamplingInputs.from_sampling_params
    rcases hact with hact | hact
    · have hA : (seqs.any fun q => decide (q.repetition_penalty ≠ 1)) = true := by
        simp only [List.any_eq_true, decide_eq_true_eq]
        exact ⟨s, hs, hact⟩
      simp only [hA, if_true]
      simp
    · have hB : ((seqs.map fun q => q.has_logits_processor).any id) = true := by
        simp only [List.any_eq_true, List.mem_map, id_eq]
        exact ⟨true, ⟨s, hs, hact⟩, rfl⟩
      simp [hB]
  · refine iff_of_false ?_ hx
    push_neg at hx
    have hA : (seqs.any fun q => decide (q.repetition_penalty ≠ 1)) = false := by
      rw [List.any_eq_false]
      intro q hq
      simpa using (hx q hq).1
    have hB : ((seqs.map fun q => q.has_logits_processor).any id) = false := by
      rw [List.any_eq_false]
      intro b hb
      simp only [List.mem_map] at hb
      obtain ⟨q, hq, hbq⟩ := hb
      subst hbq
      simpa using (hx q hq).2
    unfold gather_all_ids SamplingInputs.from_sampling_params
    simp [hA, hB]
    intro q hq
    exact (hx q hq).1

/-! ### Chat-template resolution (model.py lines 2078-2092)

```python
def best_match_model(query: str) -> Optional[str]:
    for name, model in MODELS.module_dict.items():
        matched_name = model.match(query)
        if matched_name:
            return matched_name
    logger.warning(f'...')
    return 'base'
```

`MODELS.module_dict` is the global registry populated in registration order by
the `register_module` decorators throughout `model.py`; it is modelled as the
ordered list of each registered class's `match` function.  Python truthiness: a
`match` result of `None` or the empty string does not accept. -/

/-- Whether a registered template's `match` accepts the query (returns a truthy
value). -/
def accepts (m : String → Option String) (query : String) : Bool :=
  match m query with
  | some s => decide (s ≠ "")
  | none => false

/-- `best_match_model`: iterate the registry in registration order and return
the first truthy match result, else the name `base`. -/
def best_match_model : List (String → Option String) → String → String
  | [], _ => "base"
  | m :: rest, query =>
    match m query with
    | some matched_name =>
      if matched_name ≠ "" then matched_name else best_match_model rest query
    | none => best_match_model rest query

/-- When no registered template accepts the query, resolution falls through to
`base`. -/
theorem best_match_model_no_match (registry : List (String → Option String))
    (query : String) (h : ∀ f ∈ registry, accepts f query = false) :
    best_match_model registry query = "base" := by
  induction registry with
  | nil => rfl
  | cons f rest ih =>
    have hf := h f (List.mem_cons_self f rest)
    have hrest : ∀ g ∈ rest, accepts g query = false :=
      fun g hg => h g (List.mem_cons_of_mem f hg)
    unfold best_match_model
    cases hq : f query with
    | none => exact ih hrest
    | some sres =>
      unfold accepts at hf
      rw [hq] at hf
      simp only [decide_eq_false_iff_not, not_not] at hf
      show (if sres ≠ "" then sres else best_match_model rest query) = "base"
      rw [if_neg (by simp [hf])]
      exact ih hrest

/-- The first template whose `match` accepts wins, regardless of what follows
it in the registry. -/
theorem best_match_model_first (pre post : List (String → Option String))
    (m : String → Option String) (query name : String)
    (hpre : ∀ f ∈ pre, accepts f query = false) (hm : m query = some name)
    (hname : name ≠ "") :
    best_match_model (pre ++ m :: post) query = name := by
  induction pre with
  | nil =>
    simp only [List.nil_append]
    unfold best_match_model
    rw [hm]
    simp [hname]
  | cons f rest ih =>
    have hf := hpre f (List.mem_cons_self f rest)
    have hrest : ∀ g ∈ rest, accepts g query = false :=
      fun g hg => hpre g (List.mem_cons_of_mem f hg)
    simp only [List.cons_append]
    unfold best_match_model
    cases hq : f query with
    | none => exact ih hrest
    | some sres =>
      unfold accepts at hf
      rw [hq] at hf
      simp only [decide_eq_false_iff_not, not_not] at hf
      show (if sres ≠ "" then sres
        else best_match_model (rest ++ m :: post) query) = name
      rw [if_neg (by simp [hf])]
      exact ih hrest

/-- Claim C9: chat-template resolution iterates the registered templates in
registration order and returns the name produced by the first template whose
`match()` accepts the query (first-match wins); if no registered template
matches, it returns the name `base`. -/
theorem best_match_model_spec (query name : String)
    (registry pre post : List (String → Option String)) (m : String → Option String) :
    ((∀ f ∈ registry, accepts f query = false) →
      best_match_model registry query = "base") ∧
    ((∀ f ∈ pre, accepts f query = false) → m query = some name → name ≠ "" →
      best_match_model (pre ++ m :: post) query = name) :=
  ⟨fun h => best_match_model_no_match registry query h,
   fun hpre hm hname => best_match_model_first pre post m query name hpre hm hname⟩

/-- A registry of two templates: the first never matches, the second always
answers `llama2`. -/
def demoRegistry : List (String → Option String) :=
  [fun _ => none, fun _ => some "llama2"]

/-- Witness for C9: on the two-template registry the second template wins, and
the empty registry resolves to `base`. -/
theorem best_match_model_spec_witness :
    best_match_model ([] : List (String → Option String)) "query" = "base" ∧
    best_match_model ([fun _ => none] ++ (fun _ => some "llama2") :: []) "query" = "llama2" :=
  ⟨(best_match_model_spec "query" "llama2" [] [fun _ => none] []
      (fun _ => some "llama2")).1 (by intro f hf; exact absurd hf (List.not_mem_nil f)),
   (best_match_model_spec "query" "llama2" [] [fun _ => none] []
      (fun _ => some "llama2")).2
     (by intro f hf; rw [List.mem_singleton] at hf; subst hf; rfl) rfl (by decide)⟩

/-! ### Prefill-to-decode re-scheduling (engine.py lines 835-932, control flow)

```python
scheduler_output = scheduler.schedule(is_prefill=prefill, prealloc_size=prefill_interval)

if enable_empty and len(scheduler_output.running) == 0:
    return None

# schedule decoding if no valid prefill reqs.
if prefill and len(scheduler_output.running) == 0 and self.engine_config.role != EngineRole.Prefill:
    prefill = False
    scheduler_output = scheduler.schedule(is_prefill=prefill, prealloc_size=prefill_interval)

num_loops = 1 if prefill else prefill_interval
running = scheduler_output.running
...
if len(running) == 0:
    return None
...
```

`scheduler.schedule` lives in `lmdeploy/pytorch/paging` (outside the given
sources) and is passed in as a function from `is_prefill` to its output; the
bundle keeps the fields this control flow determines. -/

/-- The scheduler output fields the engine control flow reads. -/
structure SchedulerOutput where
  running : List Nat
  swap_in_map : List (Nat × Nat)
  swap_out_map : List (Nat × Nat)
deriving DecidableEq, Repr

/-- The forward-inputs bundle fields determined by the scheduling control flow
of `_make_forward_inputs` (`is_prefill` is the negation of the bundle's
`is_decoding`). -/
structure ForwardInputsBundle where
  running : List Nat
  swap_in_map : List (Nat × Nat)
  swap_out_map : List (Nat × Nat)
  loop_count : Nat
  is_prefill : Bool
deriving DecidableEq, Repr

/-- The scheduling and re-scheduling control flow of
`Engine._make_forward_inputs`, returning `none` where Python returns `None`. -/
def make_forward_inputs (sched : Bool → SchedulerOutput) (role : EngineRole)
    (prefill_interval : Nat) (prefill : Bool) (enable_empty : Bool) :
    Option ForwardInputsBundle :=
  let so := sched prefill
  if enable_empty = true ∧ so.running = [] then none
  else
    let redo := prefill = true ∧ so.running = [] ∧ role ≠ EngineRole.Prefill
    let prefill2 := if redo then false else prefill
    let so2 := if redo then sched false else so
    let num_loops := if prefill2 = true then 1 else prefill_interval
    if so2.running = [] then none
    else some { running := so2.running
                swap_in_map := so2.swap_in_map
                swap_out_map := so2.swap_out_map
                loop_count := num_loops
                is_prefill := prefill2 }

/-- A scheduler whose prefill and decode schedules are both empty. -/
def emptySched : Bool → SchedulerOutput := fun _ => ⟨[], [], []⟩

/-- Claim C10 counterexample: with an empty prefill schedule on a Hybrid-role
engine whose decode re-schedule is also empty (regular send path,
`enable_empty` unset), `_make_forward_inputs` returns `None` — so the re-schedule
does not guarantee forward inputs, and reporting no inputs in this situation is
not exclusive to the pure Prefill role. -/
theorem make_forward_inputs_counterexample :
    make_forward_inputs emptySched EngineRole.Hybrid 16 true false = none ∧
    EngineRole.Hybrid ≠ EngineRole.Prefill := by
  refine ⟨rfl, by decide⟩

/-- Claim C10 (amended): when a prefill step is requested with `enable_empty`
unset and the prefill schedule yields an empty running set, a non-Prefill-role
engine immediately re-schedules the same step as a decode batch with
`loop_count = prefill_interval`, reporting no forward inputs only when that
decode re-schedule is also empty; a pure Prefill-role engine reports no forward
inputs whenever its prefill schedule is empty; and with `enable_empty` set an
empty prefill schedule yields no forward inputs without re-scheduling for any
role. -/
theorem make_forward_inputs_prefill_empty_spec (sched : Bool → SchedulerOutput)
    (role : EngineRole) (prefill_interval : Nat) (hrole : role ≠ EngineRole.Prefill)
    (hempty : (sched true).running = []) :
    (make_forward_inputs sched role prefill_interval true false =
      if (sched false).running = [] then none
      else some { running := (sched false).running
                  swap_in_map := (sched false).swap_in_map
                  swap_out_map := (sched false).swap_out_map
                  loop_count := prefill_interval
                  is_prefill := false }) ∧
    (∀ ee, make_forward_inputs sched EngineRole.Prefill prefill_interval true ee = none) ∧
    make_forward_inputs sched role prefill_interval true true = none := by
  refine ⟨?_, ?_, ?_⟩
  · simp [make_forward_inputs, hempty, hrole]
  · intro ee
    cases ee <;> simp [make_forward_inputs, hempty]
  · simp [make_forward_inputs, hempty]

/-- A scheduler with an empty prefill schedule but one decodable sequence. -/
def demoSched : Bool → SchedulerOutput := fun b => if b then ⟨[], [], []⟩ else ⟨[5], [], []⟩

/-- Witness for the amended C10 on `demoSched` with a Hybrid role. -/
theorem make_forward_inputs_prefill_empty_spec_witness :
    (make_forward_inputs demoSched EngineRole.Hybrid 16 true false =
      if (demoSched false).running = [] then none
      else some { running := (demoSched false).running
                  swap_in_map := (demoSched false).swap_in_map
                  swap_out_map := (demoSched false).swap_out_map
                  loop_count := 16
                  is_prefill := false }) ∧
    (∀ ee, make_forward_inputs demoSched EngineRole.Prefill 16 true ee = none) ∧
    make_forward_inputs demoSched EngineRole.Hybrid 16 true true = none :=
  make_forward_inputs_prefill_empty_spec demoSched EngineRole.Hybrid 16 (by decide) rfl

end LMDeploy
